import Mathlib

/-!
Shallow embedding of the analytics core of the strand-game-data repository:
`src/game_data_analyzer.py` (class `GameDataAnalyzer`) and the query tools of
`src/agent.py` (class `SteamStatsAgent`).

Modelling conventions:
- A raw per-game payload entry is a record of `Option` fields, mirroring that
  every field may be absent from the API response; each access site applies the
  same default that the Python code passes to `dict.get`.
- Python integers are `Int`; hour values (`round(minutes / 60, 1)`) are exact
  rationals, with `round(x, 1)` modelled as round-half-to-even on `x * 10`.
- `datetime.datetime.now()` is made explicit as a parameter `now : Int`
  (seconds since the Unix epoch, UTC); `timedelta(days=days)` is `days * 86400`
  seconds, and `timedelta.days` is floor division by 86400, which agrees with
  `Int` division (Euclidean) for the positive divisor 86400.
- `datetime.fromtimestamp(ts).strftime("%b %d, %Y")` is modelled in UTC via the
  standard civil-from-days conversion.
- `sorted(xs, key=k)` is `List.mergeSort` with `fun a b => decide (k a ≤ k b)`;
  `sorted(xs, key=k, reverse=True)` is `List.mergeSort` with
  `fun a b => decide (k b ≤ k a)`.  Both are stable, as Python's `sorted` is.
- String literals from the source are kept verbatim except that the single
  quote characters surrounding interpolated names are omitted.
-/

namespace StrandGameData

/-- One entry of the raw owned-games payload (`game_data["games"][i]`).
Every field may be absent, as in the Python dicts. -/
structure RawGame where
  name : Option String
  appid : Option Int
  playtime_forever : Option Int
  rtime_last_played : Option Int
deriving Repr, DecidableEq

/-- Access `game.get("name", "Unknown Game")`. -/
def RawGame.nameD (g : RawGame) : String := g.name.getD "Unknown Game"

/-- Access `game.get("appid", 0)`. -/
def RawGame.appidD (g : RawGame) : Int := g.appid.getD 0

/-- Access `game.get("playtime_forever", 0)`. -/
def RawGame.playtimeD (g : RawGame) : Int := g.playtime_forever.getD 0

/-- Access `game.get("rtime_last_played", 0)`. -/
def RawGame.lastPlayedD (g : RawGame) : Int := g.rtime_last_played.getD 0

/-- Round-half-to-even to the nearest integer, Python `round()` on an exact
rational value. -/
def pyRoundInt (q : ℚ) : ℤ :=
  if q - (⌊q⌋ : ℚ) < 1/2 then ⌊q⌋
  else if (1 : ℚ)/2 < q - (⌊q⌋ : ℚ) then ⌊q⌋ + 1
  else if ⌊q⌋ % 2 = 0 then ⌊q⌋ else ⌊q⌋ + 1

/-- Python `round(q, 1)`. -/
def round1 (q : ℚ) : ℚ := (pyRoundInt (q * 10) : ℚ) / 10

/-- `GameDataAnalyzer._minutes_to_hours`: `round(minutes / 60, 1)`. -/
def minutes_to_hours (m : ℤ) : ℚ := round1 ((m : ℚ) / 60)

/-- Gregorian date (year, month, day) of a day number counted from 1970-01-01
(civil-from-days). -/
def civilFromDays (z : ℤ) : ℤ × ℤ × ℤ :=
  let z' := z + 719468
  let era := z' / 146097
  let doe := z' - era * 146097
  let yoe := (doe - doe / 1460 + doe / 36524 - doe / 146096) / 365
  let y := yoe + era * 400
  let doy := doe - (365 * yoe + yoe / 4 - yoe / 100)
  let mp := (5 * doy + 2) / 153
  let d := doy - (153 * mp + 2) / 5 + 1
  let m := mp + (if mp < 10 then 3 else -9)
  (if m ≤ 2 then y + 1 else y, m, d)

/-- strftime `%b`: abbreviated month name. -/
def monthAbbrev (m : ℤ) : String :=
  if m = 1 then "Jan" else if m = 2 then "Feb" else if m = 3 then "Mar"
  else if m = 4 then "Apr" else if m = 5 then "May" else if m = 6 then "Jun"
  else if m = 7 then "Jul" else if m = 8 then "Aug" else if m = 9 then "Sep"
  else if m = 10 then "Oct" else if m = 11 then "Nov" else "Dec"

/-- strftime `%d`: zero-padded day of month. -/
def pad2 (d : ℤ) : String := if d < 10 then "0" ++ toString d else toString d

/-- `GameDataAnalyzer._format_timestamp`: `"%b %d, %Y"`, or `"Never"` for
timestamp 0 (UTC). -/
def format_timestamp (ts : ℤ) : String :=
  if ts = 0 then "Never"
  else
    let ymd := civilFromDays (ts / 86400)
    monthAbbrev ymd.2.1 ++ " " ++ pad2 ymd.2.2 ++ ", " ++ toString ymd.1

/-- The per-game dict built by the query methods:
`{"name": ..., "appid": ..., "playtime_hours": ..., "last_played": ...}`. -/
structure GameEntry where
  name : String
  appid : ℤ
  playtime_hours : ℚ
  last_played : String
deriving Repr, DecidableEq

/-- Build the per-game output dict from a raw entry, with the defaults the
source passes to `dict.get`. -/
def formatEntry (g : RawGame) : GameEntry :=
  { name := g.nameD
    appid := g.appidD
    playtime_hours := minutes_to_hours g.playtimeD
    last_played := format_timestamp g.lastPlayedD }

/-- `GameDataAnalyzer.get_total_playtime`:
`sum(game.get("playtime_forever", 0) for game in self.games)` in hours. -/
def get_total_playtime (games : List RawGame) : ℚ :=
  minutes_to_hours (games.foldl (fun acc g => acc + g.playtimeD) 0)

/-- The `sorted(self.games, key=..., reverse=True)` call of
`get_most_played_games`. -/
def sortDescByPlaytime (games : List RawGame) : List RawGame :=
  games.mergeSort (fun a b => decide (b.playtimeD ≤ a.playtimeD))

/-- `GameDataAnalyzer.get_most_played_games`: descending stable sort by
playtime, truncate, format.  The limit reaching this function is positive
(the agent wrapper coerces it), so Python's `[:limit]` is `List.take`. -/
def get_most_played_games (games : List RawGame) (limit : ℕ) : List GameEntry :=
  ((sortDescByPlaytime games).take limit).map formatEntry

/-- `GameDataAnalyzer.get_unplayed_games`: the loop appending every game with
`playtime_forever < 60`, in input order. -/
def get_unplayed_games : List RawGame → List GameEntry
  | [] => []
  | g :: rest =>
      if g.playtimeD < 60 then formatEntry g :: get_unplayed_games rest
      else get_unplayed_games rest

/-- `GameDataAnalyzer.get_recently_played_games`: keep the games with
`rtime_last_played > cutoff`, format them, then
`sorted(..., key=lambda x: x["last_played"], reverse=True)`. -/
def get_recently_played_games (games : List RawGame) (days now : ℤ) : List GameEntry :=
  let cutoff := now - days * 86400
  let recent := (games.filter (fun g => decide (cutoff < g.lastPlayedD))).map formatEntry
  recent.mergeSort (fun a b => decide (b.last_played ≤ a.last_played))

/-- The per-game dict built by `get_neglected_games`, with the extra
`days_since_played` field. -/
structure NeglectedEntry where
  name : String
  appid : ℤ
  playtime_hours : ℚ
  last_played : String
  days_since_played : ℤ
deriving Repr, DecidableEq

/-- Build one neglected-games output dict;
`days_since_played = (datetime.now() - datetime.fromtimestamp(last_played)).days`. -/
def formatNeglected (now : ℤ) (g : RawGame) : NeglectedEntry :=
  { name := g.nameD
    appid := g.appidD
    playtime_hours := minutes_to_hours g.playtimeD
    last_played := format_timestamp g.lastPlayedD
    days_since_played := (now - g.lastPlayedD) / 86400 }

/-- `GameDataAnalyzer.get_neglected_games`: keep games with
`playtime >= 120 and last_played > 0 and last_played < cutoff`, format, then
sort descending by `playtime_hours`. -/
def get_neglected_games (games : List RawGame) (days now : ℤ) : List NeglectedEntry :=
  let cutoff := now - days * 86400
  let sel := games.filter (fun g =>
    decide (120 ≤ g.playtimeD) && decide (0 < g.lastPlayedD) && decide (g.lastPlayedD < cutoff))
  (sel.map (formatNeglected now)).mergeSort (fun a b => decide (b.playtime_hours ≤ a.playtime_hours))

/-- The `most_played_game` sub-dict of the library summary. -/
structure MostPlayedInfo where
  name : String
  playtime_hours : ℚ
deriving Repr, DecidableEq

/-- The dict returned by `GameDataAnalyzer.get_library_summary`. -/
structure LibrarySummary where
  total_games : ℤ
  total_playtime : ℚ
  most_played_game : Option MostPlayedInfo
  unplayed_count : ℤ
  played_count : ℤ
  average_playtime : ℚ
deriving Repr, DecidableEq

/-- One step of Python `max(games, key=lambda x: x.get("playtime_forever", 0))`:
the running maximum is replaced only on a strictly greater key, so the first
maximal element wins. -/
def pyMaxStep (best x : RawGame) : RawGame :=
  if best.playtimeD < x.playtimeD then x else best

/-- Python `max` over a nonempty list `g :: rest` with the playtime key. -/
def pyMaxByPlaytime (g : RawGame) (rest : List RawGame) : RawGame :=
  rest.foldl pyMaxStep g

/-- `GameDataAnalyzer.get_library_summary`.  `game_count` is the snapshot's
`game_data.get("game_count", 0)` (the declared count). -/
def get_library_summary (games : List RawGame) (game_count : ℤ) : LibrarySummary :=
  match games with
  | [] =>
      { total_games := 0
        total_playtime := 0
        most_played_game := none
        unplayed_count := 0
        played_count := 0
        average_playtime := 0 }
  | g :: rest =>
      let most_played := pyMaxByPlaytime g rest
      let unplayed_count : ℤ := ((g :: rest).countP (fun x => decide (x.playtimeD < 60)) : ℤ)
      let played_count := game_count - unplayed_count
      let total_playtime := get_total_playtime (g :: rest)
      let average_playtime := if 0 < played_count then total_playtime / (played_count : ℚ) else 0
      { total_games := game_count
        total_playtime := total_playtime
        most_played_game := some ⟨most_played.nameD, minutes_to_hours most_played.playtimeD⟩
        unplayed_count := unplayed_count
        played_count := played_count
        average_playtime := round1 average_playtime }

/-- The loaded snapshot held by the agent after `load_user_data`:
`game_data["games"]` and `game_data.get("game_count", 0)`. -/
structure Library where
  games : List RawGame
  game_count : ℤ
deriving Repr, DecidableEq

/-- The agent's state.  `library` is `None` before `load_user_data` succeeds
(then `analysis_data` and `game_analyzer` are also `None`, so the tools' guards
all test the same condition).  `player_name` stands for the non-snapshot part
of `library_data` (`player_info`), which no query result may depend on. -/
structure AgentState where
  library : Option Library
  player_name : String
deriving Repr, DecidableEq

/-- The defensive coercion the agent tools apply to `limit`- and `days`-like
parameters: `try: v = int(v); if v <= 0: v = dflt; except: v = dflt`.
`none` stands for input on which `int()` raises. -/
def coerce_pos (v : Option ℤ) (dflt : ℕ) : ℕ :=
  match v with
  | none => dflt
  | some n => if n ≤ 0 then dflt else n.toNat

/-- The `{"games": ..., "count": ...}` dict returned by the most/least played
tools. -/
structure GamesOut where
  games : List GameEntry
  count : ℕ
deriving Repr, DecidableEq

/-- `SteamStatsAgent.get_most_played_games` (the `@tool` wrapper):
no-data guard, coercion of `top_n` with default 5, then the analyzer call. -/
def tool_get_most_played_games (st : AgentState) (top_n : Option ℤ) :
    Except String GamesOut :=
  match st.library with
  | none => .error "No game data loaded"
  | some lib =>
      let n := coerce_pos top_n 5
      let most := get_most_played_games lib.games n
      .ok ⟨most, most.length⟩

/-- `SteamStatsAgent.get_least_played_games`: no-data guard, coercion of
`top_n` with default 5, keep games with `playtime_forever > 0`, ascending
stable sort by playtime, truncate, format. -/
def tool_get_least_played_games (st : AgentState) (top_n : Option ℤ) :
    Except String GamesOut :=
  match st.library with
  | none => .error "No game data loaded"
  | some lib =>
      let n := coerce_pos top_n 5
      let played := lib.games.filter (fun g => decide (0 < g.playtimeD))
      let sorted := played.mergeSort (fun a b => decide (a.playtimeD ≤ b.playtimeD))
      let out := (sorted.take n).map formatEntry
      .ok ⟨out, out.length⟩

/-- The `{"total_games", "played_games", "unplayed_games"}` dict of
`get_total_game_count`. -/
structure CountOut where
  total_games : ℤ
  played_games : ℤ
  unplayed_games : ℤ
deriving Repr, DecidableEq

/-- `SteamStatsAgent.get_total_game_count`: no-data guard, then fields of the
summary computed at load time. -/
def tool_get_total_game_count (st : AgentState) : Except String CountOut :=
  match st.library with
  | none => .error "No game data loaded"
  | some lib =>
      let s := get_library_summary lib.games lib.game_count
      .ok ⟨s.total_games, s.played_count, s.unplayed_count⟩

/-- The `{"total_hours", "average_hours_per_game"}` dict of
`get_total_playtime`. -/
structure PlaytimeOut where
  total_hours : ℚ
  average_hours_per_game : ℚ
deriving Repr, DecidableEq

/-- `SteamStatsAgent.get_total_playtime`: no-data guard, then fields of the
summary computed at load time. -/
def tool_get_total_playtime (st : AgentState) : Except String PlaytimeOut :=
  match st.library with
  | none => .error "No game data loaded"
  | some lib =>
      let s := get_library_summary lib.games lib.game_count
      .ok ⟨s.total_playtime, s.average_playtime⟩

/-- The `{"games", "total_count", "showing"}` dict of `list_unplayed_games`. -/
structure UnplayedOut where
  games : List GameEntry
  total_count : ℕ
  showing : ℕ
deriving Repr, DecidableEq

/-- `SteamStatsAgent.list_unplayed_games`: no-data guard, coercion of `limit`
with default 10, then a truncation of the unplayed view computed at load. -/
def tool_list_unplayed_games (st : AgentState) (limit : Option ℤ) :
    Except String UnplayedOut :=
  match st.library with
  | none => .error "No game data loaded"
  | some lib =>
      let l := coerce_pos limit 10
      let unplayed := get_unplayed_games lib.games
      .ok ⟨unplayed.take l, unplayed.length, min l unplayed.length⟩

/-- Outcome of `find_game_stats`: the no-data or no-name error dict, the
exact-match dict, the partial-match dict, or the not-found dict. -/
inductive FindOut where
  | err (msg : String)
  | exact (e : GameEntry)
  | matches (ms : List GameEntry) (count : ℕ)
  | not_found (msg : String)
deriving Repr, DecidableEq

/-- `SteamStatsAgent.find_game_stats`: no-data guard, empty-name guard, exact
case-insensitive name match, else substring matches, else not found.  Name
comparisons default an absent name to `""`, as the source does. -/
def tool_find_game_stats (st : AgentState) (game_name : String) : FindOut :=
  match st.library with
  | none => .err "No game data loaded"
  | some lib =>
      if game_name = "" then .err "No game name provided"
      else
        match lib.games.find? (fun g => (g.name.getD "").toLower == game_name.toLower) with
        | some g => .exact (formatEntry g)
        | none =>
            let ms := (lib.games.filter (fun g =>
              decide (game_name.toLower.toList <:+: (g.name.getD "").toLower.toList))).map formatEntry
            if ms.isEmpty then
              .not_found ("Game " ++ game_name ++ " not found in your library")
            else .matches ms ms.length

/-- The `{"games", "total_count", "showing", "days"}` dict of the recently
played tool. -/
structure RecentOut where
  games : List GameEntry
  total_count : ℕ
  showing : ℕ
  days : ℤ
deriving Repr, DecidableEq

/-- `SteamStatsAgent.get_recently_played_games`: no-data guard, coercion of
`days` (default 30) and `limit` (default 5), analyzer call at the current
time, truncation. -/
def tool_get_recently_played_games (st : AgentState) (days limit : Option ℤ)
    (now : ℤ) : Except String RecentOut :=
  match st.library with
  | none => .error "No game data loaded"
  | some lib =>
      let d : ℤ := (coerce_pos days 30 : ℕ)
      let l := coerce_pos limit 5
      let recent := get_recently_played_games lib.games d now
      .ok ⟨recent.take l, recent.length, min l recent.length, d⟩

/-- The `{"games", "total_count", "showing", "days"}` dict of the neglected
games tool. -/
structure NeglectedOut where
  games : List NeglectedEntry
  total_count : ℕ
  showing : ℕ
  days : ℤ
deriving Repr, DecidableEq

/-- `SteamStatsAgent.get_neglected_games`: no-data guard, coercion of `days`
(default 365) and `limit` (default 5), analyzer call at the current time,
truncation. -/
def tool_get_neglected_games (st : AgentState) (days limit : Option ℤ)
    (now : ℤ) : Except String NeglectedOut :=
  match st.library with
  | none => .error "No game data loaded"
  | some lib =>
      let d : ℤ := (coerce_pos days 365 : ℕ)
      let l := coerce_pos limit 5
      let neg := get_neglected_games lib.games d now
      .ok ⟨neg.take l, neg.length, min l neg.length, d⟩

/-- `SteamStatsAgent.get_library_summary` (the `@tool` wrapper): no-data
guard, then the summary computed at load time. -/
def tool_get_library_summary (st : AgentState) : Except String LibrarySummary :=
  match st.library with
  | none => .error "No game data loaded"
  | some lib => .ok (get_library_summary lib.games lib.game_count)

/-- The external Steam web API as seen by `get_game_info`: the first search
hit's appid (or `none`), and the details payload for an appid (`Except` models
a raised exception). -/
structure SteamOracle where
  search_game : String → Option ℤ
  get_game_details : ℤ → Except String String

/-- Outcome of `get_game_info`: details for an owned game (with the user's
stats attached), details for an unowned game found by search, the basic-info
fallback used when fetching details for an owned game raises, or an error
dict. -/
inductive GameInfoOut where
  | found_owned (details : String) (playtime_hours : ℚ) (last_played : String)
  | found_unowned (details : String)
  | fallback_basic (name : String) (appid : ℤ) (playtime_hours : ℚ) (last_played : String)
  | err (msg : String)
deriving Repr, DecidableEq

/-- `SteamStatsAgent.get_game_info`.  Note the absence of a no-data guard:
with `library = none` the owned-game scan is skipped and control falls through
to the external search path.  `owned_game["appid"]` is a bracket access, so an
absent appid raises inside the `try` and lands in the basic-info fallback. -/
def tool_get_game_info (st : AgentState) (api : SteamOracle) (game_name : String) :
    GameInfoOut :=
  let owned : Option RawGame := match st.library with
    | none => none
    | some lib => lib.games.find? (fun g => (g.name.getD "").toLower == game_name.toLower)
  match owned with
  | some g =>
      match g.appid with
      | none =>
          .fallback_basic g.nameD g.appidD (minutes_to_hours g.playtimeD)
            (format_timestamp g.lastPlayedD)
      | some aid =>
          match api.get_game_details aid with
          | .ok d =>
              .found_owned d (minutes_to_hours g.playtimeD) (format_timestamp g.lastPlayedD)
          | .error _ =>
              .fallback_basic g.nameD g.appidD (minutes_to_hours g.playtimeD)
                (format_timestamp g.lastPlayedD)
  | none =>
      match api.search_game game_name with
      | none => .err ("Could not find game " ++ game_name ++ " on Steam")
      | some aid =>
          match api.get_game_details aid with
          | .ok d => .found_unowned d
          | .error _ =>
              .err ("Could not find or fetch information for game " ++ game_name)

/-- State-passing form of the recently played tool: the method body writes no
attribute of `self`, so the state comes back unchanged. -/
def step_recently_played (st : AgentState) (days limit : Option ℤ) (now : ℤ) :
    Except String RecentOut × AgentState :=
  (tool_get_recently_played_games st days limit now, st)

/-- State-passing form of the neglected games tool: the method body writes no
attribute of `self`, so the state comes back unchanged. -/
def step_neglected (st : AgentState) (days limit : Option ℤ) (now : ℤ) :
    Except String NeglectedOut × AgentState :=
  (tool_get_neglected_games st days limit now, st)

/-! Helper lemmas about the sorting, maximum and filtering combinators used by
the embedded queries. -/

/-- Transitivity of the descending key comparison used for `reverse=True`
sorts. -/
theorem descKey_trans {α β : Type} [LinearOrder β] (key : α → β) :
    ∀ a b c : α, decide (key b ≤ key a) = true → decide (key c ≤ key b) = true →
      decide (key c ≤ key a) = true := by
  intro a b c h1 h2
  simp only [decide_eq_true_eq] at h1 h2 ⊢
  exact le_trans h2 h1

/-- Totality of the descending key comparison used for `reverse=True` sorts. -/
theorem descKey_total {α β : Type} [LinearOrder β] (key : α → β) :
    ∀ a b : α, (decide (key b ≤ key a) || decide (key a ≤ key b)) = true := by
  intro a b
  rcases le_total (key b) (key a) with h | h <;> simp [h]

/-- Transitivity of the ascending key comparison used for plain sorts. -/
theorem ascKey_trans {α β : Type} [LinearOrder β] (key : α → β) :
    ∀ a b c : α, decide (key a ≤ key b) = true → decide (key b ≤ key c) = true →
      decide (key a ≤ key c) = true := by
  intro a b c h1 h2
  simp only [decide_eq_true_eq] at h1 h2 ⊢
  exact le_trans h1 h2

/-- Totality of the ascending key comparison used for plain sorts. -/
theorem ascKey_total {α β : Type} [LinearOrder β] (key : α → β) :
    ∀ a b : α, (decide (key a ≤ key b) || decide (key b ≤ key a)) = true := by
  intro a b
  rcases le_total (key a) (key b) with h | h <;> simp [h]

/-- A descending-by-key mergeSort is pairwise descending on the key. -/
theorem mergeSort_desc_pairwise {α β : Type} [LinearOrder β] (key : α → β) (l : List α) :
    (l.mergeSort fun a b => decide (key b ≤ key a)).Pairwise fun a b => key b ≤ key a := by
  have hs := List.sorted_mergeSort (descKey_trans key) (descKey_total key) l
  exact hs.imp (by intro a b h; exact of_decide_eq_true h)

/-- An ascending-by-key mergeSort is pairwise ascending on the key. -/
theorem mergeSort_asc_pairwise {α β : Type} [LinearOrder β] (key : α → β) (l : List α) :
    (l.mergeSort fun a b => decide (key a ≤ key b)).Pairwise fun a b => key a ≤ key b := by
  have hs := List.sorted_mergeSort (ascKey_trans key) (ascKey_total key) l
  exact hs.imp (by intro a b h; exact of_decide_eq_true h)

/-- Stability of mergeSort, phrased by filter classes: a predicate-selected
subsequence whose members are pairwise related by `le` (for instance a class
of equal sort keys) comes out of the sort exactly as it went in. -/
theorem mergeSort_filter_fixed {α : Type} (le : α → α → Bool)
    (htrans : ∀ a b c : α, le a b = true → le b c = true → le a c = true)
    (htotal : ∀ a b : α, (le a b || le b a) = true)
    (l : List α) (p : α → Bool)
    (hp : ∀ a b : α, p a = true → p b = true → le a b = true) :
    (l.mergeSort le).filter p = l.filter p := by
  have hpair : (l.filter p).Pairwise fun a b => le a b = true := by
    apply List.pairwise_of_forall_mem_list
    intro a ha b hb
    exact hp a b (List.of_mem_filter ha) (List.of_mem_filter hb)
  have h1 : (l.filter p).Sublist (l.mergeSort le) :=
    List.sublist_mergeSort htrans htotal hpair (List.filter_sublist l)
  have h2 : (l.filter p).filter p = l.filter p :=
    List.filter_eq_self.mpr fun a ha => List.of_mem_filter ha
  have h3 := h1.filter p
  rw [h2] at h3
  have h4 : ((l.mergeSort le).filter p).length = (l.filter p).length :=
    ((List.mergeSort_perm l le).filter p).length_eq
  exact (h3.eq_of_length h4.symm).symm

/-- Characterization of the fold that embeds Python `max(..., key=...)`: the
result is either the accumulator (when nothing beats it) or the first element
of the list that is strictly greater than the accumulator and everything
before it, and nothing after it is strictly greater. -/
theorem pyFoldMax_spec (l : List RawGame) (acc : RawGame) :
    (l.foldl pyMaxStep acc = acc ∧ ∀ x ∈ l, x.playtimeD ≤ acc.playtimeD) ∨
    (∃ l₁ r l₂, l = l₁ ++ r :: l₂ ∧ l.foldl pyMaxStep acc = r ∧
      acc.playtimeD < r.playtimeD ∧ (∀ x ∈ l₁, x.playtimeD < r.playtimeD) ∧
      (∀ x ∈ l₂, x.playtimeD ≤ r.playtimeD)) := by
  induction l generalizing acc with
  | nil => exact Or.inl ⟨rfl, by simp⟩
  | cons x xs ih =>
    by_cases hx : acc.playtimeD < x.playtimeD
    · have hstep : (x :: xs).foldl pyMaxStep acc = xs.foldl pyMaxStep x := by
        simp [List.foldl_cons, pyMaxStep, hx]
      rcases ih x with ⟨heq, hall⟩ | ⟨l₁, r, l₂, hsplit, heq, haccr, hl₁, hl₂⟩
      · exact Or.inr ⟨[], x, xs, by simp, by rw [hstep, heq], hx, by simp, hall⟩
      · refine Or.inr ⟨x :: l₁, r, l₂, by simp [hsplit], by rw [hstep, heq],
          lt_trans hx haccr, ?_, hl₂⟩
        intro y hy
        rcases List.mem_cons.mp hy with rfl | hy'
        · exact haccr
        · exact hl₁ y hy'
    · have hstep : (x :: xs).foldl pyMaxStep acc = xs.foldl pyMaxStep acc := by
        simp [List.foldl_cons, pyMaxStep, hx]
      rcases ih acc with ⟨heq, hall⟩ | ⟨l₁, r, l₂, hsplit, heq, haccr, hl₁, hl₂⟩
      · refine Or.inl ⟨by rw [hstep, heq], ?_⟩
        intro y hy
        rcases List.mem_cons.mp hy with rfl | hy'
        · exact le_of_not_lt hx
        · exact hall y hy'
      · refine Or.inr ⟨x :: l₁, r, l₂, by simp [hsplit], by rw [hstep, heq], haccr, ?_, hl₂⟩
        intro y hy
        rcases List.mem_cons.mp hy with rfl | hy'
        · exact lt_of_le_of_lt (le_of_not_lt hx) haccr
        · exact hl₁ y hy'

/-- The conditional-append loop of `get_unplayed_games` is filter-then-map. -/
theorem get_unplayed_games_eq (games : List RawGame) :
    get_unplayed_games games =
      (games.filter fun g => decide (g.playtimeD < 60)).map formatEntry := by
  induction games with
  | nil => rfl
  | cons g rest ih =>
    by_cases hg : g.playtimeD < 60
    · simp [get_unplayed_games, hg, List.filter_cons, ih]
    · simp [get_unplayed_games, hg, List.filter_cons, ih]

/-- Python `round(0, 1)` is 0. -/
theorem round1_zero : round1 0 = 0 := by
  norm_num [round1, pyRoundInt]

/-- The defensive parameter coercion always produces a positive count when the
default is positive. -/
theorem coerce_pos_pos (v : Option ℤ) (d : ℕ) (hd : 0 < d) : 0 < coerce_pos v d := by
  cases v with
  | none => exact hd
  | some n =>
    simp only [coerce_pos]
    split
    · exact hd
    · omega

/-- Summing playtimes by the fold of the source equals summing the mapped
playtimes. -/
theorem foldl_playtime_eq_sum (games : List RawGame) :
    games.foldl (fun acc g => acc + g.playtimeD) 0 = (games.map RawGame.playtimeD).sum := by
  rw [List.sum_eq_foldl, List.foldl_map]

/-- Unfolding of the nonempty branch of the library summary. -/
theorem get_library_summary_cons (g : RawGame) (rest : List RawGame) (cnt : ℤ) :
    get_library_summary (g :: rest) cnt =
      { total_games := cnt
        total_playtime := get_total_playtime (g :: rest)
        most_played_game := some ⟨(pyMaxByPlaytime g rest).nameD,
          minutes_to_hours (pyMaxByPlaytime g rest).playtimeD⟩
        unplayed_count := ((g :: rest).countP fun x => decide (x.playtimeD < 60) : ℤ)
        played_count :=
          cnt - ((g :: rest).countP fun x => decide (x.playtimeD < 60) : ℤ)
        average_playtime := round1
          (if 0 < cnt - ((g :: rest).countP fun x => decide (x.playtimeD < 60) : ℤ) then
            get_total_playtime (g :: rest) /
              ((cnt - ((g :: rest).countP fun x => decide (x.playtimeD < 60) : ℤ) : ℤ) : ℚ)
          else 0) } := rfl

/-! The claims. -/

/-- C1: on a snapshot with a nonempty record list, `get_library_summary`
reports `total_games` equal to the declared count, `unplayed_count` equal to
the number of records with playtime below 60 minutes, `played_count` equal to
the declared count minus the unplayed count, `total_playtime` equal to the
summed minutes divided by 60 and rounded to one decimal, `most_played_game`
equal to the record of maximum playtime with ties broken by first occurrence
in input order, and `average_playtime` equal to the total playtime divided by
the played count rounded to one decimal when the played count is positive and
0 otherwise. -/
theorem C1_library_summary (games : List RawGame) (cnt : ℤ) (hne : games ≠ []) :
    (get_library_summary games cnt).total_games = cnt ∧
    (get_library_summary games cnt).unplayed_count =
      ((games.filter fun g => decide (g.playtimeD < 60)).length : ℤ) ∧
    (get_library_summary games cnt).played_count =
      cnt - ((games.filter fun g => decide (g.playtimeD < 60)).length : ℤ) ∧
    (get_library_summary games cnt).total_playtime =
      round1 (((games.map RawGame.playtimeD).sum : ℚ) / 60) ∧
    (∃ pre mp post, games = pre ++ mp :: post ∧
      (∀ g ∈ pre, g.playtimeD < mp.playtimeD) ∧
      (∀ g ∈ games, g.playtimeD ≤ mp.playtimeD) ∧
      (get_library_summary games cnt).most_played_game =
        some ⟨mp.nameD, minutes_to_hours mp.playtimeD⟩) ∧
    (get_library_summary games cnt).average_playtime =
      (if 0 < (get_library_summary games cnt).played_count then
        round1 ((get_library_summary games cnt).total_playtime /
          ((get_library_summary games cnt).played_count : ℚ))
      else 0) := by
  obtain ⟨g, rest, rfl⟩ : ∃ g rest, games = g :: rest := by
    cases games with
    | nil => exact absurd rfl hne
    | cons g rest => exact ⟨g, rest, rfl⟩
  refine ⟨by rw [get_library_summary_cons], ?_, ?_, ?_, ?_, ?_⟩
  · rw [get_library_summary_cons]
    simp [List.countP_eq_length_filter]
  · rw [get_library_summary_cons]
    simp [List.countP_eq_length_filter]
  · rw [get_library_summary_cons]
    show minutes_to_hours ((g :: rest).foldl (fun acc x => acc + x.playtimeD) 0) = _
    rw [foldl_playtime_eq_sum]
    rfl
  · rcases pyFoldMax_spec rest g with ⟨heq, hall⟩ | ⟨l₁, r, l₂, hsplit, heq, haccr, hl₁, hl₂⟩
    · refine ⟨[], g, rest, by simp, by simp, ?_, ?_⟩
      · intro x hx
        rcases List.mem_cons.mp hx with rfl | hx'
        · exact le_refl _
        · exact hall x hx'
      · rw [get_library_summary_cons]
        simp [pyMaxByPlaytime, heq]
    · refine ⟨g :: l₁, r, l₂, by simp [hsplit], ?_, ?_, ?_⟩
      · intro x hx
        rcases List.mem_cons.mp hx with rfl | hx'
        · exact haccr
        · exact hl₁ x hx'
      · intro x hx
        rcases List.mem_cons.mp hx with rfl | hx'
        · exact le_of_lt haccr
        · rcases List.mem_append.mp (by rw [← hsplit]; exact hx') with hx₁ | hx₂
          · exact le_of_lt (hl₁ x hx₁)
          · rcases List.mem_cons.mp hx₂ with rfl | hx₃
            · exact le_refl _
            · exact hl₂ x hx₃
      · rw [get_library_summary_cons]
        simp [pyMaxByPlaytime, heq]
  · rw [get_library_summary_cons]
    by_cases hp : 0 < cnt - ((g :: rest).countP fun x => decide (x.playtimeD < 60) : ℤ)
    · simp [hp]
    · simp [hp, round1_zero]

/-- C7: `get_unplayed_games` returns exactly the records with
`playtime_minutes_total < 60`, formatted, in input order; every entry of the
result comes from such a record and every such record contributes its entry. -/
theorem C7_unplayed_games (games : List RawGame) :
    get_unplayed_games games =
      (games.filter fun g => decide (g.playtimeD < 60)).map formatEntry ∧
    (∀ g ∈ games, g.playtimeD < 60 → formatEntry g ∈ get_unplayed_games games) ∧
    (∀ e ∈ get_unplayed_games games, ∃ g, g ∈ games ∧ g.playtimeD < 60 ∧ e = formatEntry g) := by
  refine ⟨get_unplayed_games_eq games, ?_, ?_⟩
  · intro g hg hlt
    rw [get_unplayed_games_eq]
    exact List.mem_map_of_mem _ (List.mem_filter.mpr ⟨hg, by simpa using hlt⟩)
  · intro e he
    rw [get_unplayed_games_eq] at he
    obtain ⟨g, hg, rfl⟩ := List.mem_map.mp he
    exact ⟨g, (List.mem_filter.mp hg).1, by simpa using (List.mem_filter.mp hg).2, rfl⟩

/-- C8: on an empty record list `get_library_summary` returns the all-zero
summary with no most-played game, for any declared count, and in particular
the division in the average is never taken. -/
theorem C8_empty_summary (cnt : ℤ) :
    get_library_summary [] cnt =
      { total_games := 0
        total_playtime := 0
        most_played_game := none
        unplayed_count := 0
        played_count := 0
        average_playtime := 0 } := rfl

/-! Concrete inputs used by the witnesses (the scenario of the spec's
testable-properties section). -/

/-- Record A of the spec scenario: zero playtime, never played. -/
def gA : RawGame := ⟨some "A", some 1, some 0, some 0⟩

/-- Record B of the spec scenario: 600 minutes, last played at epoch
1000000. -/
def gB : RawGame := ⟨some "B", some 2, some 600, some 1000000⟩

/-- Record C of the spec scenario: 30 minutes, never played. -/
def gC : RawGame := ⟨some "C", some 3, some 30, some 0⟩

/-- The scenario snapshot record list. -/
def demoGames : List RawGame := [gA, gB, gC]

/-- The scenario snapshot with declared count 3. -/
def demoLib : Library := ⟨demoGames, 3⟩

/-- An agent state holding the scenario snapshot. -/
def demoState : AgentState := ⟨some demoLib, "player"⟩

/-- An agent state before any load. -/
def noneState : AgentState := ⟨none, "player"⟩

/-- Witness for C1 at the scenario snapshot. -/
theorem C1_witness :
    demoGames ≠ [] ∧ (get_library_summary demoGames 3).total_games = 3 :=
  ⟨by decide, (C1_library_summary demoGames 3 (by decide)).1⟩

/-- C2: the most-played tool succeeds on a loaded snapshot and returns the
records in descending stable order of playtime, truncated to at most the
coerced limit; a zero, negative, or non-numeric limit is coerced to the
default 5, so a nonempty library never yields zero records. -/
theorem C2_most_played (st : AgentState) (lib : Library) (hlib : st.library = some lib)
    (top_n : Option ℤ) :
    ∃ out : GamesOut, tool_get_most_played_games st top_n = .ok out ∧
      out.games.length ≤ coerce_pos top_n 5 ∧
      ((top_n = none ∨ ∃ k, top_n = some k ∧ k ≤ 0) → coerce_pos top_n 5 = 5) ∧
      (lib.games ≠ [] → out.games ≠ []) ∧
      (∃ S : List RawGame, S.Perm lib.games ∧
        (S.Pairwise fun a b => b.playtimeD ≤ a.playtimeD) ∧
        (∀ v : ℤ, (S.filter fun g => decide (g.playtimeD = v)) =
          lib.games.filter fun g => decide (g.playtimeD = v)) ∧
        out.games = (S.take (coerce_pos top_n 5)).map formatEntry) := by
  refine ⟨⟨get_most_played_games lib.games (coerce_pos top_n 5),
    (get_most_played_games lib.games (coerce_pos top_n 5)).length⟩, ?_, ?_, ?_, ?_, ?_⟩
  · simp [tool_get_most_played_games, hlib]
  · simp only [get_most_played_games, List.length_map, List.length_take]
    exact min_le_left _ _
  · rintro (rfl | ⟨k, rfl, hk⟩)
    · rfl
    · simp [coerce_pos, hk]
  · intro hne h
    simp only [get_most_played_games, List.map_eq_nil_iff] at h
    rcases List.take_eq_nil_iff.mp h with h1 | h2
    · have := coerce_pos_pos top_n 5 (by norm_num)
      omega
    · have hlen := (List.mergeSort_perm lib.games
        fun a b => decide (b.playtimeD ≤ a.playtimeD)).length_eq
      rw [sortDescByPlaytime] at h2
      rw [h2] at hlen
      simp only [List.length_nil] at hlen
      exact hne (List.length_eq_zero.mp hlen.symm)
  · refine ⟨sortDescByPlaytime lib.games, List.mergeSort_perm _ _,
      mergeSort_desc_pairwise RawGame.playtimeD lib.games, ?_, rfl⟩
    intro v
    refine mergeSort_filter_fixed _ (descKey_trans RawGame.playtimeD)
      (descKey_total RawGame.playtimeD) lib.games _ ?_
    intro a b ha hb
    simp only [decide_eq_true_eq] at ha hb ⊢
    rw [ha, hb]

/-- Witness for C2 at the scenario snapshot with limit 0, which the tool
coerces to 5. -/
theorem C2_witness :
    demoState.library = some demoLib ∧
    ∃ out : GamesOut, tool_get_most_played_games demoState (some 0) = .ok out ∧
      out.games.length ≤ coerce_pos (some 0) 5 ∧ (demoLib.games ≠ [] → out.games ≠ []) := by
  refine ⟨rfl, ?_⟩
  obtain ⟨out, hout, hlen, -, hne, -⟩ := C2_most_played demoState demoLib rfl (some 0)
  exact ⟨out, hout, hlen, hne⟩

/-- C3: the recently-played view consists exactly of the records whose
last-played epoch is strictly greater than `now - days` (in seconds), sorted
descending by the formatted last-played date string, i.e. lexicographically on
the rendered date; whenever the cutoff is nonnegative a record with epoch 0
never passes the qualification test. -/
theorem C3_recently_played (games : List RawGame) (days now : ℤ) (hdays : 0 < days) :
    (get_recently_played_games games days now).Perm
      ((games.filter fun g => decide (now - days * 86400 < g.lastPlayedD)).map formatEntry) ∧
    ((get_recently_played_games games days now).Pairwise
      fun a b => b.last_played ≤ a.last_played) ∧
    (∀ e ∈ get_recently_played_games games days now,
      ∃ g, g ∈ games ∧ now - days * 86400 < g.lastPlayedD ∧ e = formatEntry g) ∧
    (0 ≤ now - days * 86400 → ∀ g ∈ games, g.lastPlayedD = 0 →
      decide (now - days * 86400 < g.lastPlayedD) = false) := by
  refine ⟨?_, ?_, ?_, ?_⟩
  · simp only [get_recently_played_games]
    exact List.mergeSort_perm _ _
  · simp only [get_recently_played_games]
    exact mergeSort_desc_pairwise GameEntry.last_played _
  · intro e he
    simp only [get_recently_played_games] at he
    rw [(List.mergeSort_perm _ _).mem_iff] at he
    obtain ⟨g, hg, rfl⟩ := List.mem_map.mp he
    exact ⟨g, (List.mem_filter.mp hg).1, by simpa using (List.mem_filter.mp hg).2, rfl⟩
  · intro h g _ hzero
    rw [hzero]
    exact decide_eq_false (not_lt.mpr h)

/-- Witness for C3 at a one-record snapshot one second inside the window. -/
theorem C3_witness :
    (0 : ℤ) < 1 ∧
    (get_recently_played_games [gB] 1 1086399).Perm
      (([gB].filter fun g => decide ((1086399 : ℤ) - 1 * 86400 < g.lastPlayedD)).map
        formatEntry) :=
  ⟨by decide, (C3_recently_played [gB] 1 1086399 (by decide)).1⟩

/-- C3 counterexample: the epoch-0 exclusion does not hold unconditionally.
When the window reaches back past the Unix epoch the cutoff
`now - days * 86400` is negative and the code's test
`last_played > cutoff` admits a never-played record: with the positive
`days = 2` and the clock one day after the epoch, the epoch-0 record is
returned. -/
theorem C3_counterexample :
    gA.lastPlayedD = 0 ∧ (0 : ℤ) < 2 ∧
    get_recently_played_games [gA] 2 86400 = [formatEntry gA] := by
  refine ⟨rfl, by decide, ?_⟩
  simp only [get_recently_played_games]
  rw [show List.filter (fun g => decide ((86400 : ℤ) - 2 * 86400 < g.lastPlayedD))
      [gA] = [gA] by simp [gA, RawGame.lastPlayedD]]
  simp [List.mergeSort_singleton]

/-- C5: the neglected view consists exactly of the records with at least 120
minutes of playtime, a nonzero last-played epoch, and a last-played epoch
strictly older than `now - days`, sorted descending by rounded playtime hours;
each entry carries `days_since_played` computed from `now` and the record's
last-played time, and a record under 120 minutes never passes the eligibility
test even when old enough. -/
theorem C5_neglected_games (games : List RawGame) (days now : ℤ) (hdays : 0 < days) :
    (get_neglected_games games days now).Perm
      ((games.filter fun g => decide (120 ≤ g.playtimeD) && decide (0 < g.lastPlayedD) &&
        decide (g.lastPlayedD < now - days * 86400)).map (formatNeglected now)) ∧
    ((get_neglected_games games days now).Pairwise
      fun a b => b.playtime_hours ≤ a.playtime_hours) ∧
    (∀ e ∈ get_neglected_games games days now, ∃ g, g ∈ games ∧
      120 ≤ g.playtimeD ∧ 0 < g.lastPlayedD ∧ g.lastPlayedD < now - days * 86400 ∧
      e = formatNeglected now g ∧
      e.days_since_played = (now - g.lastPlayedD) / 86400) ∧
    (∀ g ∈ games, g.playtimeD < 120 →
      (decide (120 ≤ g.playtimeD) && decide (0 < g.lastPlayedD) &&
        decide (g.lastPlayedD < now - days * 86400)) = false) := by
  refine ⟨?_, ?_, ?_, ?_⟩
  · simp only [get_neglected_games]
    exact List.mergeSort_perm _ _
  · simp only [get_neglected_games]
    exact mergeSort_desc_pairwise NeglectedEntry.playtime_hours _
  · intro e he
    simp only [get_neglected_games] at he
    rw [(List.mergeSort_perm _ _).mem_iff] at he
    obtain ⟨g, hg, rfl⟩ := List.mem_map.mp he
    obtain ⟨hmem, hpred⟩ := List.mem_filter.mp hg
    simp only [Bool.and_eq_true, decide_eq_true_eq] at hpred
    exact ⟨g, hmem, hpred.1.1, hpred.1.2, hpred.2, rfl, rfl⟩
  · intro g _ hlt
    simp [show ¬ (120 ≤ g.playtimeD) from not_le.mpr hlt]

/-- Witness for C5: a 30-minute record older than the cutoff fails the
eligibility test. -/
theorem C5_witness :
    (0 : ℤ) < 365 ∧ gC ∈ demoGames ∧ gC.playtimeD < 120 ∧
    (decide (120 ≤ gC.playtimeD) && decide (0 < gC.lastPlayedD) &&
      decide (gC.lastPlayedD < (63072000 : ℤ) - 365 * 86400)) = false :=
  ⟨by decide, by decide, by decide,
    (C5_neglected_games demoGames 365 63072000 (by decide)).2.2.2 gC (by decide) (by decide)⟩

/-- C6: the least-played tool succeeds on a loaded snapshot, keeps only
records with strictly positive playtime in ascending stable order truncated to
the coerced limit, and every zero-playtime record instead appears in the
unplayed view. -/
theorem C6_least_played (st : AgentState) (lib : Library) (hlib : st.library = some lib)
    (top_n : Option ℤ) :
    ∃ out : GamesOut, tool_get_least_played_games st top_n = .ok out ∧
      out.games.length ≤ coerce_pos top_n 5 ∧
      (∃ S : List RawGame,
        S.Perm (lib.games.filter fun g => decide (0 < g.playtimeD)) ∧
        (S.Pairwise fun a b => a.playtimeD ≤ b.playtimeD) ∧
        (∀ g ∈ S, 0 < g.playtimeD) ∧
        out.games = (S.take (coerce_pos top_n 5)).map formatEntry) ∧
      (∀ g ∈ lib.games, g.playtimeD = 0 → formatEntry g ∈ get_unplayed_games lib.games) := by
  refine ⟨⟨((((lib.games.filter fun g => decide (0 < g.playtimeD)).mergeSort
      fun a b => decide (a.playtimeD ≤ b.playtimeD)).take (coerce_pos top_n 5)).map
        formatEntry),
    ((((lib.games.filter fun g => decide (0 < g.playtimeD)).mergeSort
      fun a b => decide (a.playtimeD ≤ b.playtimeD)).take (coerce_pos top_n 5)).map
        formatEntry).length⟩, ?_, ?_, ?_, ?_⟩
  · simp [tool_get_least_played_games, hlib]
  · simp only [List.length_map, List.length_take]
    exact min_le_left _ _
  · refine ⟨(lib.games.filter fun g => decide (0 < g.playtimeD)).mergeSort
      fun a b => decide (a.playtimeD ≤ b.playtimeD), List.mergeSort_perm _ _,
      mergeSort_asc_pairwise RawGame.playtimeD _, ?_, rfl⟩
    intro g hg
    rw [(List.mergeSort_perm _ _).mem_iff] at hg
    simpa using List.of_mem_filter hg
  · intro g hg hzero
    rw [get_unplayed_games_eq]
    refine List.mem_map_of_mem _ (List.mem_filter.mpr ⟨hg, ?_⟩)
    simp [hzero]

/-- Witness for C6 at the scenario snapshot: the zero-playtime record A sits
in the unplayed view. -/
theorem C6_witness :
    demoState.library = some demoLib ∧ gA.playtimeD = 0 ∧
    formatEntry gA ∈ get_unplayed_games demoLib.games := by
  refine ⟨rfl, by decide, ?_⟩
  obtain ⟨out, -, -, -, hzero⟩ := C6_least_played demoState demoLib rfl none
  exact hzero gA (by decide) (by decide)

/-- C4 counterexample: with no snapshot loaded, `get_game_info` does not
return the distinct no-data error; it falls through to the external Steam
search and reports a search failure instead. -/
theorem C4_counterexample :
    tool_get_game_info ⟨none, "player"⟩ ⟨fun _ => none, fun _ => .error ""⟩ "Portal" =
      .err ("Could not find game " ++ "Portal" ++ " on Steam") ∧
    tool_get_game_info ⟨none, "player"⟩ ⟨fun _ => none, fun _ => .error ""⟩ "Portal" ≠
      .err "No game data loaded" :=
  ⟨rfl, by decide⟩

/-- C4 amended: each of the nine library-query tools checks explicitly for a
missing snapshot and returns the distinct `"No game data loaded"` error value
(rather than raising); `get_game_info` performs no such check. -/
theorem C4_no_data_guards (st : AgentState) (h : st.library = none)
    (top_n limit days : Option ℤ) (now : ℤ) (name : String) :
    tool_get_total_game_count st = .error "No game data loaded" ∧
    tool_get_total_playtime st = .error "No game data loaded" ∧
    tool_get_most_played_games st top_n = .error "No game data loaded" ∧
    tool_get_least_played_games st top_n = .error "No game data loaded" ∧
    tool_list_unplayed_games st limit = .error "No game data loaded" ∧
    tool_find_game_stats st name = .err "No game data loaded" ∧
    tool_get_recently_played_games st days limit now = .error "No game data loaded" ∧
    tool_get_neglected_games st days limit now = .error "No game data loaded" ∧
    tool_get_library_summary st = .error "No game data loaded" := by
  refine ⟨?_, ?_, ?_, ?_, ?_, ?_, ?_, ?_, ?_⟩ <;>
    simp [tool_get_total_game_count, tool_get_total_playtime, tool_get_most_played_games,
      tool_get_least_played_games, tool_list_unplayed_games, tool_find_game_stats,
      tool_get_recently_played_games, tool_get_neglected_games, tool_get_library_summary, h]

/-- Witness for the amended C4 at the unloaded agent state. -/
theorem C4_witness :
    noneState.library = none ∧
    tool_get_library_summary noneState = .error "No game data loaded" :=
  ⟨rfl, (C4_no_data_guards noneState rfl none none none 0 "Portal").2.2.2.2.2.2.2.2⟩

/-- A raw payload entry missing every optional field. -/
def emptyRaw : RawGame := ⟨none, none, none, none⟩

/-- Folding the Python-max step over copies of the all-defaults record leaves
the accumulator unchanged. -/
theorem pyMaxStep_replicate (m : ℕ) :
    (List.replicate m emptyRaw).foldl pyMaxStep emptyRaw = emptyRaw := by
  induction m with
  | zero => rfl
  | succ k ih => simpa [List.replicate_succ, List.foldl_cons, pyMaxStep] using ih

/-- Folding the playtime sum over copies of the all-defaults record keeps the
accumulator. -/
theorem foldl_playtime_replicate (m : ℕ) (c : ℤ) :
    (List.replicate m emptyRaw).foldl (fun acc g => acc + g.playtimeD) c = c := by
  induction m generalizing c with
  | zero => rfl
  | succ k ih =>
    simp only [List.replicate_succ, List.foldl_cons]
    rw [show c + emptyRaw.playtimeD = c by simp [emptyRaw, RawGame.playtimeD]]
    exact ih c

/-- C9: a payload whose entries lack every optional field is accepted; the
records surface with name `"Unknown Game"`, appid 0, zero playtime hours and
last-played `"Never"`, and the query operations still compute definite values
on such a snapshot. -/
theorem C9_missing_fields (n k : ℕ) (days now cnt : ℤ) (hn : 0 < n) :
    formatEntry emptyRaw =
      { name := "Unknown Game", appid := 0, playtime_hours := 0, last_played := "Never" } ∧
    get_unplayed_games (List.replicate n emptyRaw) =
      List.replicate n (formatEntry emptyRaw) ∧
    get_total_playtime (List.replicate n emptyRaw) = 0 ∧
    get_most_played_games (List.replicate n emptyRaw) k =
      List.replicate (min k n) (formatEntry emptyRaw) ∧
    get_neglected_games (List.replicate n emptyRaw) days now = [] ∧
    (get_library_summary (List.replicate n emptyRaw) cnt).most_played_game =
      some ⟨"Unknown Game", 0⟩ ∧
    (0 ≤ now - days * 86400 → get_recently_played_games (List.replicate n emptyRaw) days now = []) := by
  have hfmt : formatEntry emptyRaw =
      { name := "Unknown Game", appid := 0, playtime_hours := 0, last_played := "Never" } := by
    simp only [formatEntry, emptyRaw, RawGame.nameD, RawGame.appidD, RawGame.playtimeD,
      RawGame.lastPlayedD, Option.getD_none, minutes_to_hours]
    rw [show ((0 : ℤ) : ℚ) / 60 = 0 by norm_num, round1_zero,
      show format_timestamp 0 = "Never" from rfl]
  refine ⟨hfmt, ?_, ?_, ?_, ?_, ?_, ?_⟩
  · have h0 : emptyRaw.playtimeD < 60 := by simp [emptyRaw, RawGame.playtimeD]
    clear hn
    induction n with
    | zero => rfl
    | succ m ih =>
      simp only [List.replicate_succ, get_unplayed_games, if_pos h0, ih]
  · simp only [get_total_playtime, foldl_playtime_replicate, minutes_to_hours]
    rw [show ((0 : ℤ) : ℚ) / 60 = 0 by norm_num, round1_zero]
  · have hsorted : sortDescByPlaytime (List.replicate n emptyRaw) =
        List.replicate n emptyRaw := by
      simp only [sortDescByPlaytime]
      apply List.eq_replicate_iff.mpr
      constructor
      · exact (List.mergeSort_perm _ _).length_eq.trans (by simp)
      · intro b hb
        rw [(List.mergeSort_perm _ _).mem_iff] at hb
        exact List.eq_of_mem_replicate hb
    simp [get_most_played_games, hsorted, List.take_replicate, List.map_replicate]
  · simp only [get_neglected_games]
    rw [List.filter_replicate]
    simp [emptyRaw, RawGame.playtimeD]
  · obtain ⟨m, rfl⟩ : ∃ m, n = m + 1 := ⟨n - 1, by omega⟩
    rw [List.replicate_succ, get_library_summary_cons]
    simp only [pyMaxByPlaytime, pyMaxStep_replicate]
    rw [show emptyRaw.nameD = "Unknown Game" from rfl]
    rw [show minutes_to_hours emptyRaw.playtimeD = 0 by
      simp only [emptyRaw, RawGame.playtimeD, Option.getD_none, minutes_to_hours]
      rw [show ((0 : ℤ) : ℚ) / 60 = 0 by norm_num, round1_zero]]
  · intro h
    simp only [get_recently_played_games]
    rw [List.filter_replicate]
    simp [emptyRaw, RawGame.lastPlayedD, not_lt.mpr h]

/-- Witness for C9 at two all-defaults records. -/
theorem C9_witness :
    (0 : ℕ) < 2 ∧
    formatEntry emptyRaw =
      { name := "Unknown Game", appid := 0, playtime_hours := 0, last_played := "Never" } :=
  ⟨by decide, (C9_missing_fields 2 3 365 1700000000 2 (by decide)).1⟩

/-- A record last played at epoch 100, used to exhibit clock dependence. -/
def clockGame : RawGame := ⟨some "A", some 1, some 0, some 100⟩

/-- C10 counterexample: `get_recently_played_games` consults the wall clock,
so two invocations on the same snapshot with the same `days` argument can
return different results one second apart; the result is not a function of
the snapshot and explicit arguments alone. -/
theorem C10_counterexample :
    get_recently_played_games [clockGame] 1 86499 ≠
      get_recently_played_games [clockGame] 1 86500 := by
  have h1 : get_recently_played_games [clockGame] 1 86499 = [formatEntry clockGame] := by
    simp only [get_recently_played_games]
    rw [show List.filter (fun g => decide ((86499 : ℤ) - 1 * 86400 < g.lastPlayedD))
        [clockGame] = [clockGame] by simp [clockGame, RawGame.lastPlayedD]]
    simp [List.mergeSort_singleton]
  have h2 : get_recently_played_games [clockGame] 1 86500 = [] := by
    simp only [get_recently_played_games]
    rw [show List.filter (fun g => decide ((86500 : ℤ) - 1 * 86400 < g.lastPlayedD))
        [clockGame] = [] by simp [clockGame, RawGame.lastPlayedD]]
    simp [List.mergeSort_nil]
  rw [h1, h2]
  simp

/-- C10 amended: every query operation is a pure function of the snapshot,
its explicit arguments and the current clock time: the state-passing forms of
the two clock-reading operations return the agent state unchanged, and their
results do not depend on any part of the state other than the snapshot. -/
theorem C10_purity (s₁ s₂ : AgentState) (h : s₁.library = s₂.library)
    (days limit : Option ℤ) (now : ℤ) :
    (step_recently_played s₁ days limit now).2 = s₁ ∧
    (step_neglected s₁ days limit now).2 = s₁ ∧
    (step_recently_played s₁ days limit now).1 = (step_recently_played s₂ days limit now).1 ∧
    (step_neglected s₁ days limit now).1 = (step_neglected s₂ days limit now).1 := by
  refine ⟨rfl, rfl, ?_, ?_⟩ <;>
    simp [step_recently_played, step_neglected, tool_get_recently_played_games,
      tool_get_neglected_games, h]

/-- Witness for the amended C10: two states sharing the scenario snapshot but
holding different player names produce identical results. -/
theorem C10_witness :
    (AgentState.mk (some demoLib) "alice").library =
      (AgentState.mk (some demoLib) "bob").library ∧
    (step_recently_played ⟨some demoLib, "alice"⟩ none none 1700000000).1 =
      (step_recently_played ⟨some demoLib, "bob"⟩ none none 1700000000).1 :=
  ⟨rfl, (C10_purity ⟨some demoLib, "alice"⟩ ⟨some demoLib, "bob"⟩ rfl none none
    1700000000).2.2.1⟩

end StrandGameData
